import Mathlib

/-!
Verification of the operational resilience core of a Rust microservice
template: the circuit breaker, the retrying HTTP client wrapper, and the
graceful-shutdown coordinator and components.  The definitions below are a
shallow embedding of the corresponding Rust code in
src/services/external_service.rs and src/shutdown.rs; time is modelled as a
natural-number clock passed explicitly where the Rust code reads
Instant::now(), and durations are in the unit the Rust code uses
(seconds for the breaker timeout, milliseconds for retry delays and
shutdown timeouts).
-/

namespace Resilience

/-- Circuit breaker state, mirroring enum CircuitBreakerState. -/
inductive CircuitBreakerState
  | Closed
  | Open
  | HalfOpen
deriving Repr, DecidableEq

/-- Circuit breaker data, mirroring struct CircuitBreaker.  Instants are
natural numbers; the timeout is in seconds, as Duration::from_secs builds it. -/
structure CircuitBreaker where
  state : CircuitBreakerState
  failureCount : Nat
  successCount : Nat
  lastFailureTime : Option Nat
  failureThreshold : Nat
  timeout : Nat
  halfOpenMaxCalls : Nat
deriving Repr, DecidableEq

/-- CircuitBreaker::new. -/
def CircuitBreaker.new (failureThreshold : Nat) (timeoutSeconds : Nat) : CircuitBreaker :=
  { state := .Closed
    failureCount := 0
    successCount := 0
    lastFailureTime := none
    failureThreshold := failureThreshold
    timeout := timeoutSeconds
    halfOpenMaxCalls := 3 }

/-- CircuitBreaker::can_execute.  The Rust method mutates self and returns a
bool; we return the bool together with the updated breaker.  `now` stands for
the clock read used by last_failure.elapsed(), so elapsed = now - lastFailure. -/
def CircuitBreaker.can_execute (cb : CircuitBreaker) (now : Nat) : Bool × CircuitBreaker :=
  match cb.state with
  | .Closed => (true, cb)
  | .Open =>
    match cb.lastFailureTime with
    | some lastFailure =>
      if cb.timeout ≤ now - lastFailure then
        (true, { cb with state := .HalfOpen, successCount := 0 })
      else
        (false, cb)
    | none => (false, cb)
  | .HalfOpen => (decide (cb.successCount < cb.halfOpenMaxCalls), cb)

/-- CircuitBreaker::record_success. -/
def CircuitBreaker.record_success (cb : CircuitBreaker) : CircuitBreaker :=
  match cb.state with
  | .Closed => { cb with failureCount := 0 }
  | .HalfOpen =>
    let sc := cb.successCount + 1
    if cb.halfOpenMaxCalls ≤ sc then
      { cb with successCount := sc, state := .Closed, failureCount := 0 }
    else
      { cb with successCount := sc }
  | .Open => cb

/-- CircuitBreaker::record_failure.  The count is bumped and the failure time
stamped before the state match, exactly as in the Rust body. -/
def CircuitBreaker.record_failure (cb : CircuitBreaker) (now : Nat) : CircuitBreaker :=
  let cb2 := { cb with failureCount := cb.failureCount + 1, lastFailureTime := some now }
  match cb2.state with
  | .Closed =>
    if cb2.failureThreshold ≤ cb2.failureCount then
      { cb2 with state := .Open }
    else
      cb2
  | .HalfOpen => { cb2 with state := .Open }
  | .Open => cb2

/-- HttpExternalService::reset_circuit_breaker, acting on the guarded breaker. -/
def CircuitBreaker.reset (cb : CircuitBreaker) : CircuitBreaker :=
  { cb with state := .Closed, failureCount := 0, successCount := 0, lastFailureTime := none }

/-- Iterate record_failure, all failures stamped at the same clock value. -/
def iterFail (cb : CircuitBreaker) (now : Nat) : Nat → CircuitBreaker
  | 0 => cb
  | n + 1 => (iterFail cb now n).record_failure now

/-- Iterate record_success. -/
def iterSuccess (cb : CircuitBreaker) : Nat → CircuitBreaker
  | 0 => cb
  | n + 1 => (iterSuccess cb n).record_success

/-- Error type, mirroring enum ExternalServiceError; the wrapped reqwest error
of the Http variant is carried as its message string. -/
inductive ExternalServiceError
  | Http (msg : String)
  | Timeout
  | ServiceUnavailable
  | InvalidResponse (msg : String)
  | CircuitBreakerOpen
  | RateLimitExceeded
  | RetryExhausted
  | Serialization (msg : String)
deriving Repr, DecidableEq

instance {ε α : Type} [DecidableEq ε] [DecidableEq α] : DecidableEq (Except ε α)
  | .ok a, .ok b => decidable_of_iff (a = b) (by simp)
  | .ok _, .error _ => .isFalse (by simp)
  | .error _, .ok _ => .isFalse (by simp)
  | .error a, .error b => decidable_of_iff (a = b) (by simp)

/-- Observable outcome of one execute_with_retry call: the returned value or
error, how many times the operation closure ran, the sleeps performed (in
milliseconds, in order), whether the final unwrap_or fell back to
RetryExhausted, and the breaker afterwards. -/
structure RetryOutcome (α : Type) where
  result : Except ExternalServiceError α
  invocations : Nat
  delays : List Nat
  usedFallback : Bool
  cb : CircuitBreaker
deriving Repr, DecidableEq

/-- The backoff delay in milliseconds slept after 0-indexed `attempt` fails:
retry_delay_ms * 2_u64.pow(attempt), in u64 arithmetic. -/
def retryDelayMs (baseDelayMs attempt : Nat) : Nat :=
  (baseDelayMs * (2 ^ attempt % 2 ^ 64)) % 2 ^ 64

/-- The for-loop of HttpExternalService::execute_with_retry (the loop runs for
attempt in 0..=maxRetries; `remaining` counts the iterations left).  `op`
gives each attempt's outcome, `times` the clock at each attempt's failure
recording; `invs` and `delays` accumulate invocations and sleeps. -/
def retryLoop {α : Type} (op : Nat → Except ExternalServiceError α) (times : Nat → Nat)
    (maxRetries baseDelayMs : Nat) :
    Nat → Nat → CircuitBreaker → Option ExternalServiceError → Nat → List Nat →
    RetryOutcome α
  | _, 0, cb, lastError, invs, delays =>
    { result := .error (lastError.getD .RetryExhausted)
      invocations := invs
      delays := delays
      usedFallback := lastError.isNone
      cb := cb }
  | attempt, remaining + 1, cb, _lastError, invs, delays =>
    match op attempt with
    | .ok v =>
      { result := .ok v
        invocations := invs + 1
        delays := delays
        usedFallback := false
        cb := cb.record_success }
    | .error e =>
      let cb2 := cb.record_failure (times attempt)
      if attempt < maxRetries then
        retryLoop op times maxRetries baseDelayMs (attempt + 1) remaining cb2 (some e)
          (invs + 1) (delays ++ [retryDelayMs baseDelayMs attempt])
      else
        retryLoop op times maxRetries baseDelayMs (attempt + 1) remaining cb2 (some e)
          (invs + 1) delays

/-- HttpExternalService::execute_with_retry: gate on the breaker, failing fast
with CircuitBreakerOpen, otherwise run the retry loop over maxRetries+1
attempts. -/
def execute_with_retry {α : Type} (cb : CircuitBreaker) (entryTime : Nat)
    (times : Nat → Nat) (op : Nat → Except ExternalServiceError α)
    (maxRetries baseDelayMs : Nat) : RetryOutcome α :=
  match cb.can_execute entryTime with
  | (true, cb2) =>
    retryLoop op times maxRetries baseDelayMs 0 (maxRetries + 1) cb2 none 0 []
  | (false, cb2) =>
    { result := .error .CircuitBreakerOpen
      invocations := 0
      delays := []
      usedFallback := false
      cb := cb2 }

/-- Shutdown error type, mirroring enum ShutdownError. -/
inductive ShutdownError
  | Timeout
  | Database (msg : String)
  | HttpServer (msg : String)
  | ExternalService (msg : String)
  | ResourceCleanup (msg : String)
deriving Repr, DecidableEq

/-- A registered shutdown component as the coordinator observes it, in the
shape of the mock components of the test suite: a name and the outcome its
shutdown() produces. -/
structure MockComponent where
  name : String
  outcome : Except ShutdownError Unit
deriving Repr, DecidableEq

/-- ShutdownComponent::shutdown of a mock component. -/
def MockComponent.shutdown (c : MockComponent) : Except ShutdownError Unit :=
  c.outcome

/-- ShutdownCoordinator::shutdown_all: iterate the registered components in
reverse registration order, invoke shutdown() on each and log its name and
outcome, continuing past failures, and finally return Ok.  The first member is
the invocation log in order; the second the aggregate result. -/
def shutdown_all (components : List MockComponent) :
    List (String × Except ShutdownError Unit) × Except ShutdownError Unit :=
  (components.reverse.map (fun c => (c.name, c.shutdown)), Except.ok ())

/-- HttpServerShutdown: an owned axum server handle (identity irrelevant here)
and the drain timeout in milliseconds. -/
structure HttpServerShutdown where
  serverHandle : Option Unit
  drainTimeout : Nat
deriving Repr, DecidableEq

/-- HttpServerShutdown::shutdown: take the handle if still present, hand the
drain timeout to handle.graceful_shutdown, pause briefly, and return Ok; with
the handle already consumed, return Ok at once.  No deadline wraps the body. -/
def HttpServerShutdown.shutdown (c : HttpServerShutdown) :
    HttpServerShutdown × Except ShutdownError Unit :=
  match c.serverHandle with
  | some _ => ({ c with serverHandle := none }, Except.ok ())
  | none => (c, Except.ok ())

/-- DatabaseShutdown: an owned database pool and the close timeout in
milliseconds. -/
structure DatabaseShutdown where
  database : Option Unit
  closeTimeout : Nat
deriving Repr, DecidableEq

/-- DatabaseShutdown::shutdown: take the pool if still present and run the
close body under tokio::time::timeout(closeTimeout).  How long
database.close() takes is outside this code, so it is the parameter
`closeDuration`; within the deadline the body ends Ok, past it the timeout arm
reports ShutdownError::Database("Close timeout").  With the pool already
consumed, return Ok at once. -/
def DatabaseShutdown.shutdown (c : DatabaseShutdown) (closeDuration : Nat) :
    DatabaseShutdown × Except ShutdownError Unit :=
  match c.database with
  | some _ =>
    if closeDuration ≤ c.closeTimeout then
      ({ c with database := none }, Except.ok ())
    else
      ({ c with database := none }, Except.error (.Database "Close timeout"))
  | none => (c, Except.ok ())

/-- ExternalServiceShutdown: an owned client reference and the cleanup timeout
in milliseconds. -/
structure ExternalServiceShutdown where
  service : Option Unit
  cleanupTimeout : Nat
deriving Repr, DecidableEq

/-- ExternalServiceShutdown::shutdown: take the client if still present and
run the cleanup body — a fixed 100 ms simulated sleep — under
tokio::time::timeout(cleanupTimeout); within the deadline Ok, past it
ShutdownError::ExternalService("Cleanup timeout").  Already consumed: Ok. -/
def ExternalServiceShutdown.shutdown (c : ExternalServiceShutdown) :
    ExternalServiceShutdown × Except ShutdownError Unit :=
  match c.service with
  | some _ =>
    if 100 ≤ c.cleanupTimeout then
      ({ c with service := none }, Except.ok ())
    else
      ({ c with service := none }, Except.error (.ExternalService "Cleanup timeout"))
  | none => (c, Except.ok ())

/-- TracingShutdown: the owned worker guard and the flush timeout in
milliseconds. -/
structure TracingShutdown where
  guard : Option Unit
  flushTimeout : Nat
deriving Repr, DecidableEq

/-- TracingShutdown::shutdown: take the guard if still present and run the
flush body — a fixed 100 ms sleep — under tokio::time::timeout(flushTimeout);
both the completed arm and the elapsed arm return Ok (a flush timeout is
deliberately not fatal).  Already consumed: Ok. -/
def TracingShutdown.shutdown (c : TracingShutdown) :
    TracingShutdown × Except ShutdownError Unit :=
  match c.guard with
  | some _ =>
    if 100 ≤ c.flushTimeout then
      ({ c with guard := none }, Except.ok ())
    else
      ({ c with guard := none }, Except.ok ())
  | none => (c, Except.ok ())

/-- One externally driven step of the breaker: the operations reachable
through HttpExternalService (the can_execute gate, outcome recording, and the
administrative reset). -/
inductive CBOp
  | canExec (now : Nat)
  | recordSuccess
  | recordFailure (now : Nat)
  | reset
deriving Repr, DecidableEq

/-- Apply one breaker operation. -/
def CBOp.apply (cb : CircuitBreaker) : CBOp → CircuitBreaker
  | .canExec now => (cb.can_execute now).2
  | .recordSuccess => cb.record_success
  | .recordFailure now => cb.record_failure now
  | .reset => cb.reset

/-- Run a sequence of breaker operations from a given breaker. -/
def runOps (cb : CircuitBreaker) : List CBOp → CircuitBreaker
  | [] => cb
  | op :: rest => runOps (CBOp.apply cb op) rest

/-- How many failures a sequence of operations records. -/
def countFailures : List CBOp → Nat
  | [] => 0
  | .recordFailure _ :: rest => countFailures rest + 1
  | _ :: rest => countFailures rest

/-- Helper: a run of j < k failures from a fresh breaker with threshold k keeps
the breaker Closed, with the failure count tracking the run length and the
threshold untouched. -/
lemma iterFail_new_closed (k t now : Nat) :
    ∀ j, j < k →
      (iterFail (CircuitBreaker.new k t) now j).state = .Closed ∧
      (iterFail (CircuitBreaker.new k t) now j).failureCount = j ∧
      (iterFail (CircuitBreaker.new k t) now j).failureThreshold = k := by
  intro j
  induction j with
  | zero =>
    intro _
    exact ⟨rfl, rfl, rfl⟩
  | succ j ih =>
    intro hj
    obtain ⟨hs, hc, hth⟩ := ih (Nat.lt_of_succ_lt hj)
    have hlt : ¬ k ≤ j + 1 := by omega
    simp only [iterFail, CircuitBreaker.record_failure, hs, hc, hth]
    simp [hlt]

/-- Helper: once Open, record_failure keeps the breaker Open. -/
lemma record_failure_open (cb : CircuitBreaker) (now : Nat)
    (h : cb.state = .Open) : (cb.record_failure now).state = .Open := by
  simp [CircuitBreaker.record_failure, h]

/-- Helper: with threshold k at least 1, the k-th failure from a fresh breaker
trips it Open. -/
lemma iterFail_new_opens (k t now : Nat) (hk : 1 ≤ k) :
    (iterFail (CircuitBreaker.new k t) now k).state = .Open := by
  obtain ⟨k, rfl⟩ : ∃ j, k = j + 1 := ⟨k - 1, by omega⟩
  obtain ⟨hs, hc, hth⟩ := iterFail_new_closed (k + 1) t now k (Nat.lt_succ_self k)
  simp only [iterFail, CircuitBreaker.record_failure, hs, hc, hth]
  simp

/-- Helper: while HalfOpen with probe limit p, a run of j < p successes stays
HalfOpen with the success count tracking the run length. -/
lemma iterSuccess_halfopen (p : Nat) (cb : CircuitBreaker)
    (hs : cb.state = .HalfOpen) (hsc : cb.successCount = 0)
    (hp : cb.halfOpenMaxCalls = p) :
    ∀ j, j < p →
      (iterSuccess cb j).state = .HalfOpen ∧
      (iterSuccess cb j).successCount = j ∧
      (iterSuccess cb j).halfOpenMaxCalls = p := by
  intro j
  induction j with
  | zero =>
    intro _
    exact ⟨hs, hsc, hp⟩
  | succ j ih =>
    intro hj
    obtain ⟨hs1, hc1, hm1⟩ := ih (Nat.lt_of_succ_lt hj)
    have hlt : ¬ p ≤ j + 1 := by omega
    simp only [iterSuccess, CircuitBreaker.record_success, hs1, hc1, hm1]
    simp [hlt]

/-- Helper: the p-th consecutive success while HalfOpen closes the breaker and
clears the failure count. -/
lemma iterSuccess_closes (p : Nat) (cb : CircuitBreaker) (hp1 : 1 ≤ p)
    (hs : cb.state = .HalfOpen) (hsc : cb.successCount = 0)
    (hp : cb.halfOpenMaxCalls = p) :
    (iterSuccess cb p).state = .Closed ∧ (iterSuccess cb p).failureCount = 0 := by
  obtain ⟨q, rfl⟩ : ∃ q, p = q + 1 := ⟨p - 1, by omega⟩
  obtain ⟨hs1, hc1, hm1⟩ :=
    iterSuccess_halfopen (q + 1) cb hs hsc hp q (Nat.lt_succ_self q)
  simp only [iterSuccess, CircuitBreaker.record_success, hs1, hc1, hm1]
  simp

/-- C1: with any configured failure threshold k at least 1, a breaker starting
Closed with failure count 0 stays Closed (with the count tracking the run)
through any run of fewer than k consecutive failures, turns Open exactly on the
k-th consecutive record_failure, an intervening record_success while Closed
resets the failure count to 0 without leaving Closed, and with threshold 2
three consecutive failures give Open after the 2nd and still Open after the
3rd. -/
theorem closed_opens_exactly_at_threshold (k t now j : Nat) (cb : CircuitBreaker)
    (hk : 1 ≤ k) (hj : j < k) (hcb : cb.state = .Closed) :
    (iterFail (CircuitBreaker.new k t) now j).state = .Closed
    ∧ (iterFail (CircuitBreaker.new k t) now j).failureCount = j
    ∧ (iterFail (CircuitBreaker.new k t) now k).state = .Open
    ∧ cb.record_success.failureCount = 0
    ∧ cb.record_success.state = .Closed
    ∧ (iterFail (CircuitBreaker.new 2 t) now 2).state = .Open
    ∧ (iterFail (CircuitBreaker.new 2 t) now 3).state = .Open := by
  obtain ⟨h1, h2, _⟩ := iterFail_new_closed k t now j hj
  refine ⟨h1, h2, iterFail_new_opens k t now hk, ?_, ?_, ?_, ?_⟩
  · simp [CircuitBreaker.record_success, hcb]
  · simp [CircuitBreaker.record_success, hcb]
  · exact iterFail_new_opens 2 t now (by omega)
  · exact record_failure_open _ now (iterFail_new_opens 2 t now (by omega))

/-- Witness for C1 at threshold 2. -/
theorem closed_opens_exactly_at_threshold_witness :
    (iterFail (CircuitBreaker.new 2 60) 0 1).state = .Closed
    ∧ (iterFail (CircuitBreaker.new 2 60) 0 1).failureCount = 1
    ∧ (iterFail (CircuitBreaker.new 2 60) 0 2).state = .Open
    ∧ (CircuitBreaker.new 2 60).record_success.failureCount = 0
    ∧ (CircuitBreaker.new 2 60).record_success.state = .Closed
    ∧ (iterFail (CircuitBreaker.new 2 60) 0 2).state = .Open
    ∧ (iterFail (CircuitBreaker.new 2 60) 0 3).state = .Open :=
  closed_opens_exactly_at_threshold 2 60 0 1 (CircuitBreaker.new 2 60)
    (by decide) (by decide) (by decide)

/-- C2: while Open with last failure stamped at T0 and timeout t, can_execute
answers false (leaving the breaker untouched) at any clock strictly before
T0 + t, and at or after T0 + t answers true, moving to HalfOpen with the
success count reset to 0. -/
theorem open_gate_timeout (cb : CircuitBreaker) (T0 t now : Nat)
    (hstate : cb.state = .Open) (hlast : cb.lastFailureTime = some T0)
    (ht : cb.timeout = t) (hmono : T0 ≤ now) :
    (now < T0 + t → cb.can_execute now = (false, cb))
    ∧ (T0 + t ≤ now →
        (cb.can_execute now).1 = true
        ∧ (cb.can_execute now).2.state = .HalfOpen
        ∧ (cb.can_execute now).2.successCount = 0) := by
  constructor
  · intro h
    have hn : ¬ cb.timeout ≤ now - T0 := by omega
    simp [CircuitBreaker.can_execute, hstate, hlast, hn]
  · intro h
    have hy : cb.timeout ≤ now - T0 := by omega
    simp [CircuitBreaker.can_execute, hstate, hlast, hy]

/-- Witness for C2: breaker opened at time 0 with timeout 60; the gate is shut
at 59 and opens into HalfOpen at 61. -/
theorem open_gate_timeout_witness :
    ((iterFail (CircuitBreaker.new 2 60) 0 2).can_execute 59
        = (false, iterFail (CircuitBreaker.new 2 60) 0 2))
    ∧ ((iterFail (CircuitBreaker.new 2 60) 0 2).can_execute 61).1 = true
    ∧ ((iterFail (CircuitBreaker.new 2 60) 0 2).can_execute 61).2.state = .HalfOpen :=
  ⟨(open_gate_timeout _ 0 60 59 (by decide) (by decide) (by decide) (by decide)).1
      (by decide),
   ((open_gate_timeout _ 0 60 61 (by decide) (by decide) (by decide) (by decide)).2
      (by decide)).1,
   (((open_gate_timeout _ 0 60 61 (by decide) (by decide) (by decide) (by decide)).2
      (by decide)).2).1⟩

/-- C3: while HalfOpen with the success count at 0 and probe limit p (at least
1), fewer than p consecutive record_success calls leave the breaker HalfOpen,
exactly p close it and clear the failure count, a single record_failure while
HalfOpen (whatever the current success count) immediately re-opens it, and the
implementation fixes the probe limit of a fresh breaker at 3. -/
theorem half_open_probation (p j now k t : Nat) (cb cb2 : CircuitBreaker)
    (hp : cb.halfOpenMaxCalls = p) (hp1 : 1 ≤ p)
    (hs : cb.state = .HalfOpen) (hsc : cb.successCount = 0)
    (hj : j < p) (hs2 : cb2.state = .HalfOpen) :
    (iterSuccess cb j).state = .HalfOpen
    ∧ (iterSuccess cb p).state = .Closed
    ∧ (iterSuccess cb p).failureCount = 0
    ∧ (cb2.record_failure now).state = .Open
    ∧ (CircuitBreaker.new k t).halfOpenMaxCalls = 3 := by
  obtain ⟨h1, _, _⟩ := iterSuccess_halfopen p cb hs hsc hp j hj
  obtain ⟨h2, h3⟩ := iterSuccess_closes p cb hp1 hs hsc hp
  refine ⟨h1, h2, h3, ?_, rfl⟩
  simp [CircuitBreaker.record_failure, hs2]

/-- Witness for C3: a breaker driven to HalfOpen through one failure and the
timed-out gate, probed with 2 of the 3 required successes and separately with
one failure. -/
theorem half_open_probation_witness :
    (iterSuccess ((iterFail (CircuitBreaker.new 1 60) 0 1).can_execute 60).2 2).state
        = .HalfOpen
    ∧ (iterSuccess ((iterFail (CircuitBreaker.new 1 60) 0 1).can_execute 60).2 3).state
        = .Closed
    ∧ (iterSuccess ((iterFail (CircuitBreaker.new 1 60) 0 1).can_execute 60).2 3).failureCount
        = 0
    ∧ ((((iterFail (CircuitBreaker.new 1 60) 0 1).can_execute 60).2).record_failure 7).state
        = .Open
    ∧ (CircuitBreaker.new 5 60).halfOpenMaxCalls = 3 :=
  half_open_probation 3 2 7 5 60
    ((iterFail (CircuitBreaker.new 1 60) 0 1).can_execute 60).2
    ((iterFail (CircuitBreaker.new 1 60) 0 1).can_execute 60).2
    (by decide) (by decide) (by decide) (by decide) (by decide) (by decide)

/-- Helper: when the computed backoff never wraps u64, the delay is exactly
base * 2 ^ attempt. -/
lemma retryDelayMs_no_wrap (base n i : Nat) (hi : i ≤ n)
    (hb : base * 2 ^ n < 2 ^ 64) :
    retryDelayMs base i = base * 2 ^ i := by
  rcases Nat.eq_zero_or_pos base with hb0 | hb1
  · subst hb0
    simp [retryDelayMs]
  · have h2 : (2:Nat) ^ i ≤ 2 ^ n := Nat.pow_le_pow_right (by omega) hi
    have hprod : base * 2 ^ i ≤ base * 2 ^ n := Nat.mul_le_mul_left base h2
    have hpow : (2:Nat) ^ i < 2 ^ 64 := by
      calc (2:Nat) ^ i ≤ base * 2 ^ i := Nat.le_mul_of_pos_left _ hb1
        _ ≤ base * 2 ^ n := hprod
        _ < 2 ^ 64 := hb
    unfold retryDelayMs
    rw [Nat.mod_eq_of_lt hpow, Nat.mod_eq_of_lt (lt_of_le_of_lt hprod hb)]

/-- Helper: the schedule invariant of the retry loop.  Entering iteration
`attempt` with `attempt` invocations performed and the sleeps so far being the
backoffs of attempts 0..min attempt n, the loop ends with the sleeps being the
backoffs of an initial segment of length at most n, one fewer than the
invocations, and at most n+1 invocations. -/
lemma retryLoop_schedule {α : Type} (op : Nat → Except ExternalServiceError α)
    (times : Nat → Nat) (n base : Nat) (remaining : Nat) :
    ∀ attempt cb lastErr, attempt + remaining = n + 1 →
      (retryLoop op times n base attempt remaining cb lastErr attempt
          ((List.range (min attempt n)).map (fun i => retryDelayMs base i))).delays
        = (List.range (retryLoop op times n base attempt remaining cb lastErr attempt
            ((List.range (min attempt n)).map (fun i => retryDelayMs base i))).delays.length).map
            (fun i => retryDelayMs base i)
      ∧ (retryLoop op times n base attempt remaining cb lastErr attempt
          ((List.range (min attempt n)).map (fun i => retryDelayMs base i))).delays.length ≤ n
      ∧ (retryLoop op times n base attempt remaining cb lastErr attempt
          ((List.range (min attempt n)).map (fun i => retryDelayMs base i))).invocations
        = (retryLoop op times n base attempt remaining cb lastErr attempt
            ((List.range (min attempt n)).map (fun i => retryDelayMs base i))).delays.length + 1 := by
  induction remaining with
  | zero =>
    intro attempt cb lastErr h
    have ha : attempt = n + 1 := by omega
    subst ha
    have hmin : min (n + 1) n = n := by omega
    simp [retryLoop, hmin]
  | succ r ih =>
    intro attempt cb lastErr h
    have ha : attempt ≤ n := by omega
    have hmin : min attempt n = attempt := by omega
    cases hop : op attempt with
    | ok v =>
      simp only [retryLoop, hop]
      refine ⟨?_, ?_, ?_⟩
      · simp [hmin]
      · simpa [hmin] using ha
      · simp [hmin]
    | error e =>
      by_cases hlt : attempt < n
      · have hstep : ((List.range (min attempt n)).map (fun i => retryDelayMs base i))
            ++ [retryDelayMs base attempt]
            = (List.range (min (attempt + 1) n)).map (fun i => retryDelayMs base i) := by
          have hmin1 : min (attempt + 1) n = attempt + 1 := by omega
          rw [hmin, hmin1, List.range_succ, List.map_append]
          simp
        have hrec := ih (attempt + 1) (cb.record_failure (times attempt)) (some e)
          (by omega)
        rw [← hstep] at hrec
        simpa [retryLoop, hop, hlt] using hrec
      · have hstep : ((List.range (min attempt n)).map (fun i => retryDelayMs base i))
            = (List.range (min (attempt + 1) n)).map (fun i => retryDelayMs base i) := by
          have hmin1 : min attempt n = min (attempt + 1) n := by omega
          rw [hmin1]
        have hrec := ih (attempt + 1) (cb.record_failure (times attempt)) (some e)
          (by omega)
        rw [← hstep] at hrec
        simpa [retryLoop, hop, hlt] using hrec

/-- Helper: invocation count of the loop never exceeds the invocations already
made plus the remaining iterations. -/
lemma retryLoop_invocations_le {α : Type} (op : Nat → Except ExternalServiceError α)
    (times : Nat → Nat) (n base : Nat) (remaining : Nat) :
    ∀ attempt cb lastErr invs delays,
      (retryLoop op times n base attempt remaining cb lastErr invs delays).invocations
        ≤ invs + remaining := by
  induction remaining with
  | zero =>
    intro attempt cb lastErr invs delays
    simp [retryLoop]
  | succ r ih =>
    intro attempt cb lastErr invs delays
    cases hop : op attempt with
    | ok v =>
      simp only [retryLoop, hop]
      omega
    | error e =>
      by_cases hlt : attempt < n
      · simpa [retryLoop, hop, hlt] using
          le_trans (ih (attempt + 1) _ (some e) (invs + 1) _) (by omega)
      · simpa [retryLoop, hop, hlt] using
          le_trans (ih (attempt + 1) _ (some e) (invs + 1) _) (by omega)

/-- Helper: the RetryExhausted fallback of the final unwrap_or is never taken
once the loop is entered with at least one iteration left, or once an error is
already recorded. -/
lemma retryLoop_no_fallback {α : Type} (op : Nat → Except ExternalServiceError α)
    (times : Nat → Nat) (n base : Nat) (remaining : Nat) :
    ∀ attempt cb lastErr invs delays,
      (1 ≤ remaining ∨ lastErr.isSome = true) →
      (retryLoop op times n base attempt remaining cb lastErr invs delays).usedFallback
        = false := by
  induction remaining with
  | zero =>
    intro attempt cb lastErr invs delays hside
    rcases hside with hside | hside
    · omega
    · cases lastErr with
      | none => simp at hside
      | some e => simp [retryLoop]
  | succ r ih =>
    intro attempt cb lastErr invs delays _
    cases hop : op attempt with
    | ok v => simp [retryLoop, hop]
    | error e =>
      by_cases hlt : attempt < n
      · simpa [retryLoop, hop, hlt] using
          ih (attempt + 1) _ (some e) (invs + 1) _ (Or.inr rfl)
      · simpa [retryLoop, hop, hlt] using
          ih (attempt + 1) _ (some e) (invs + 1) _ (Or.inr rfl)

/-- Helper: when every attempt from `attempt` through n fails, the loop ends
with the error of the final attempt n. -/
lemma retryLoop_last_error {α : Type} (op : Nat → Except ExternalServiceError α)
    (times : Nat → Nat) (n base : Nat) (e : ExternalServiceError)
    (he : op n = Except.error e) (remaining : Nat) :
    ∀ attempt cb lastErr invs delays,
      attempt + remaining = n + 1 → 1 ≤ remaining →
      (∀ i, attempt ≤ i → i ≤ n → ∃ err, op i = Except.error err) →
      (retryLoop op times n base attempt remaining cb lastErr invs delays).result
        = Except.error e := by
  induction remaining with
  | zero =>
    intro attempt cb lastErr invs delays _ h1
    omega
  | succ r ih =>
    intro attempt cb lastErr invs delays h h1 hall
    have ha : attempt ≤ n := by omega
    obtain ⟨err, herr⟩ := hall attempt le_rfl ha
    cases r with
    | zero =>
      have hae : attempt = n := by omega
      have herre : err = e := by
        have h2 := herr
        rw [hae, he] at h2
        exact (Except.error.injEq _ _).mp h2.symm
      have hlt : ¬ attempt < n := by omega
      simp [retryLoop, herr, hlt, herre]
    | succ q =>
      have hlt : attempt < n := by omega
      have := ih (attempt + 1) (cb.record_failure (times attempt)) (some err)
        (invs + 1) (delays ++ [retryDelayMs base attempt]) (by omega) (by omega)
        (fun i hi1 hi2 => hall i (by omega) hi2)
      simpa [retryLoop, herr, hlt] using this

/-- C4: execute_with_retry runs the operation at most maxRetries + 1 times,
sleeps at most maxRetries times with the sleep before the i-th retry (1-based)
being exactly base * 2^(i-1) when no u64 wrap occurs, never sleeps after the
final attempt (once the gate passes, invocations exceed the sleeps by exactly
one), and concretely with max_retries = 3, base delay 1000 ms and an
always-failing operation makes exactly 4 invocations with sleeps of 1000,
2000 and 4000 ms. -/
theorem execute_retry_schedule (cb : CircuitBreaker) (t0 : Nat) (times : Nat → Nat)
    (op : Nat → Except ExternalServiceError Nat) (n base : Nat)
    (hbound : base * 2 ^ n < 2 ^ 64) :
    (execute_with_retry cb t0 times op n base).invocations ≤ n + 1
    ∧ (execute_with_retry cb t0 times op n base).delays.length ≤ n
    ∧ (execute_with_retry cb t0 times op n base).delays
        = (List.range (execute_with_retry cb t0 times op n base).delays.length).map
            (fun i => base * 2 ^ i)
    ∧ ((cb.can_execute t0).1 = true →
        (execute_with_retry cb t0 times op n base).invocations
          = (execute_with_retry cb t0 times op n base).delays.length + 1)
    ∧ (execute_with_retry (CircuitBreaker.new 5 60) 0 (fun _ => 0)
        (fun _ => (Except.error ExternalServiceError.Timeout : Except ExternalServiceError Nat))
        3 1000).invocations = 4
    ∧ (execute_with_retry (CircuitBreaker.new 5 60) 0 (fun _ => 0)
        (fun _ => (Except.error ExternalServiceError.Timeout : Except ExternalServiceError Nat))
        3 1000).delays = [1000, 2000, 4000] := by
  have hconv : ∀ L : Nat, L ≤ n →
      (List.range L).map (fun i => retryDelayMs base i)
        = (List.range L).map (fun i => base * 2 ^ i) := by
    intro L hL
    apply List.map_congr_left
    intro a ha
    have : a < L := List.mem_range.mp ha
    exact retryDelayMs_no_wrap base n a (by omega) hbound
  rcases hgate : cb.can_execute t0 with ⟨b, cb2⟩
  cases b with
  | false =>
    refine ⟨?_, ?_, ?_, ?_, by decide, by decide⟩ <;>
      simp [execute_with_retry, hgate]
  | true =>
    have hinit : ((List.range (min 0 n)).map (fun i => retryDelayMs base i))
        = ([] : List Nat) := by simp
    have hsch := retryLoop_schedule op times n base (n + 1) 0 cb2 none (by omega)
    rw [hinit] at hsch
    obtain ⟨hdel, hlen, hinv⟩ := hsch
    have hexe : execute_with_retry cb t0 times op n base
        = retryLoop op times n base 0 (n + 1) cb2 none 0 [] := by
      simp [execute_with_retry, hgate]
    refine ⟨?_, ?_, ?_, ?_, by decide, by decide⟩
    · rw [hexe]
      simpa using retryLoop_invocations_le op times n base (n + 1) 0 cb2 none 0 []
    · rw [hexe]; exact hlen
    · rw [hexe, hdel]
      rw [List.length_map, List.length_range]
      exact hconv _ (by simpa using hlen)
    · intro _
      rw [hexe]
      exact hinv

/-- Witness for C4: default-shaped breaker, all four attempts time out. -/
theorem execute_retry_schedule_witness :
    (execute_with_retry (CircuitBreaker.new 5 60) 0 (fun _ => 0)
        (fun _ => (Except.error ExternalServiceError.Timeout : Except ExternalServiceError Nat))
        3 1000).invocations = 4
    ∧ (execute_with_retry (CircuitBreaker.new 5 60) 0 (fun _ => 0)
        (fun _ => (Except.error ExternalServiceError.Timeout : Except ExternalServiceError Nat))
        3 1000).delays = [1000, 2000, 4000] :=
  ⟨(execute_retry_schedule (CircuitBreaker.new 5 60) 0 (fun _ => 0)
      (fun _ => (Except.error ExternalServiceError.Timeout : Except ExternalServiceError Nat))
      3 1000 (by norm_num)).2.2.2.2.1,
   (execute_retry_schedule (CircuitBreaker.new 5 60) 0 (fun _ => 0)
      (fun _ => (Except.error ExternalServiceError.Timeout : Except ExternalServiceError Nat))
      3 1000 (by norm_num)).2.2.2.2.2⟩

/-- C5: a false can_execute gate makes execute_with_retry return
CircuitBreakerOpen with zero invocations; with the gate open and every attempt
failing, the error of the last attempt (attempt maxRetries) is returned; and
the RetryExhausted fallback of the final unwrap_or is never used. -/
theorem execute_error_paths (cb : CircuitBreaker) (t0 : Nat) (times : Nat → Nat)
    (op : Nat → Except ExternalServiceError Nat) (n base : Nat)
    (e : ExternalServiceError) :
    ((cb.can_execute t0).1 = false →
      (execute_with_retry cb t0 times op n base).result
          = Except.error ExternalServiceError.CircuitBreakerOpen
      ∧ (execute_with_retry cb t0 times op n base).invocations = 0)
    ∧ ((cb.can_execute t0).1 = true →
        (∀ i, i ≤ n → ∃ err, op i = Except.error err) →
        op n = Except.error e →
        (execute_with_retry cb t0 times op n base).result = Except.error e)
    ∧ (execute_with_retry cb t0 times op n base).usedFallback = false := by
  rcases hgate : cb.can_execute t0 with ⟨b, cb2⟩
  cases b with
  | false =>
    refine ⟨fun _ => ⟨?_, ?_⟩, fun htrue => by simp at htrue, ?_⟩ <;>
      simp [execute_with_retry, hgate]
  | true =>
    have hexe : execute_with_retry cb t0 times op n base
        = retryLoop op times n base 0 (n + 1) cb2 none 0 [] := by
      simp [execute_with_retry, hgate]
    refine ⟨fun hfalse => by simp at hfalse, fun _ hall hn => ?_, ?_⟩
    · rw [hexe]
      exact retryLoop_last_error op times n base e hn (n + 1) 0 cb2 none 0 []
        (by omega) (by omega) (fun i _ hi2 => hall i hi2)
    · rw [hexe]
      exact retryLoop_no_fallback op times n base (n + 1) 0 cb2 none 0 []
        (Or.inl (by omega))

/-- Witness for C5: an Open breaker well inside its timeout rejects with
CircuitBreakerOpen and no invocation; a fresh breaker with every attempt
failing surfaces the final attempt's ServiceUnavailable and never uses the
fallback. -/
theorem execute_error_paths_witness :
    (execute_with_retry (iterFail (CircuitBreaker.new 1 60) 0 1) 10 (fun _ => 10)
        (fun _ => (Except.error ExternalServiceError.Timeout : Except ExternalServiceError Nat))
        3 1000).result = Except.error ExternalServiceError.CircuitBreakerOpen
    ∧ (execute_with_retry (iterFail (CircuitBreaker.new 1 60) 0 1) 10 (fun _ => 10)
        (fun _ => (Except.error ExternalServiceError.Timeout : Except ExternalServiceError Nat))
        3 1000).invocations = 0
    ∧ (execute_with_retry (CircuitBreaker.new 5 60) 0 (fun _ => 0)
        (fun i => if i = 3 then Except.error ExternalServiceError.ServiceUnavailable
          else (Except.error ExternalServiceError.Timeout : Except ExternalServiceError Nat))
        3 1000).result = Except.error ExternalServiceError.ServiceUnavailable
    ∧ (execute_with_retry (CircuitBreaker.new 5 60) 0 (fun _ => 0)
        (fun i => if i = 3 then Except.error ExternalServiceError.ServiceUnavailable
          else (Except.error ExternalServiceError.Timeout : Except ExternalServiceError Nat))
        3 1000).usedFallback = false :=
  ⟨((execute_error_paths (iterFail (CircuitBreaker.new 1 60) 0 1) 10 (fun _ => 10)
      (fun _ => (Except.error ExternalServiceError.Timeout : Except ExternalServiceError Nat))
      3 1000 ExternalServiceError.Timeout).1 (by decide)).1,
   ((execute_error_paths (iterFail (CircuitBreaker.new 1 60) 0 1) 10 (fun _ => 10)
      (fun _ => (Except.error ExternalServiceError.Timeout : Except ExternalServiceError Nat))
      3 1000 ExternalServiceError.Timeout).1 (by decide)).2,
   (execute_error_paths (CircuitBreaker.new 5 60) 0 (fun _ => 0)
      (fun i => if i = 3 then Except.error ExternalServiceError.ServiceUnavailable
        else (Except.error ExternalServiceError.Timeout : Except ExternalServiceError Nat))
      3 1000 ExternalServiceError.ServiceUnavailable).2.1 (by decide)
      (by
        intro i hi
        by_cases h3 : i = 3
        · exact ⟨ExternalServiceError.ServiceUnavailable, by simp [h3]⟩
        · exact ⟨ExternalServiceError.Timeout, by simp [h3]⟩)
      (by simp),
   (execute_error_paths (CircuitBreaker.new 5 60) 0 (fun _ => 0)
      (fun i => if i = 3 then Except.error ExternalServiceError.ServiceUnavailable
        else (Except.error ExternalServiceError.Timeout : Except ExternalServiceError Nat))
      3 1000 ExternalServiceError.ServiceUnavailable).2.2⟩

/-- C6: shutdown_all invokes shutdown on every registered component in exactly
reverse registration order and returns success, even when every registered
component's shutdown fails. -/
theorem shutdown_all_reverse_and_ok (cs : List MockComponent)
    (hfail : ∀ c ∈ cs, ∃ e, c.outcome = Except.error e) :
    (shutdown_all cs).1.map Prod.fst = (cs.map MockComponent.name).reverse
    ∧ (shutdown_all cs).1.length = cs.length
    ∧ (shutdown_all cs).2 = Except.ok () := by
  refine ⟨?_, ?_, rfl⟩
  · simp [shutdown_all]
  · simp [shutdown_all]

/-- Witness for C6: three components registered as A, B, C, all failing; the
teardown log is C, B, A and the aggregate result is success. -/
theorem shutdown_all_reverse_and_ok_witness :
    (shutdown_all
        [{ name := "A", outcome := Except.error (ShutdownError.ResourceCleanup "Mock failure") },
         { name := "B", outcome := Except.error (ShutdownError.ResourceCleanup "Mock failure") },
         { name := "C", outcome := Except.error ShutdownError.Timeout }]).1.map Prod.fst
      = (([
          { name := "A", outcome := Except.error (ShutdownError.ResourceCleanup "Mock failure") },
          { name := "B", outcome := Except.error (ShutdownError.ResourceCleanup "Mock failure") },
          { name := "C", outcome := Except.error ShutdownError.Timeout }] :
            List MockComponent).map MockComponent.name).reverse
    ∧ (shutdown_all
        [{ name := "A", outcome := Except.error (ShutdownError.ResourceCleanup "Mock failure") },
         { name := "B", outcome := Except.error (ShutdownError.ResourceCleanup "Mock failure") },
         { name := "C", outcome := Except.error ShutdownError.Timeout }]).1.length
      = ([{ name := "A", outcome := Except.error (ShutdownError.ResourceCleanup "Mock failure") },
          { name := "B", outcome := Except.error (ShutdownError.ResourceCleanup "Mock failure") },
          { name := "C", outcome := Except.error ShutdownError.Timeout }] :
            List MockComponent).length
    ∧ (shutdown_all
        [{ name := "A", outcome := Except.error (ShutdownError.ResourceCleanup "Mock failure") },
         { name := "B", outcome := Except.error (ShutdownError.ResourceCleanup "Mock failure") },
         { name := "C", outcome := Except.error ShutdownError.Timeout }]).2
      = Except.ok () :=
  shutdown_all_reverse_and_ok _
    (by
      intro c hc
      rcases List.mem_cons.mp hc with h | hc
      · exact ⟨_, by rw [h]⟩
      rcases List.mem_cons.mp hc with h | hc
      · exact ⟨_, by rw [h]⟩
      rcases List.mem_cons.mp hc with h | hc
      · exact ⟨_, by rw [h]⟩
      · simp at hc)

/-- C7: each of the four concrete shutdown components consumes its resource on
the first shutdown call, and every later call takes the no-resource branch,
returning success without changing the component. -/
theorem shutdown_components_idempotent (h : HttpServerShutdown) (d : DatabaseShutdown)
    (dur dur2 : Nat) (e : ExternalServiceShutdown) (t : TracingShutdown) :
    (h.shutdown.1.serverHandle = none
      ∧ h.shutdown.1.shutdown = (h.shutdown.1, Except.ok ()))
    ∧ ((d.shutdown dur).1.database = none
      ∧ (d.shutdown dur).1.shutdown dur2 = ((d.shutdown dur).1, Except.ok ()))
    ∧ (e.shutdown.1.service = none
      ∧ e.shutdown.1.shutdown = (e.shutdown.1, Except.ok ()))
    ∧ (t.shutdown.1.guard = none
      ∧ t.shutdown.1.shutdown = (t.shutdown.1, Except.ok ())) := by
  obtain ⟨hh, hdt⟩ := h
  obtain ⟨dd, dct⟩ := d
  obtain ⟨ee, ect⟩ := e
  obtain ⟨tt, tft⟩ := t
  refine ⟨?_, ?_, ?_, ?_⟩
  · cases hh <;> simp [HttpServerShutdown.shutdown]
  · cases dd <;> simp [DatabaseShutdown.shutdown] <;> split <;>
      simp [DatabaseShutdown.shutdown]
  · cases ee <;> simp [ExternalServiceShutdown.shutdown] <;> split <;>
      simp [ExternalServiceShutdown.shutdown]
  · cases tt <;> simp [TracingShutdown.shutdown]

/-- C8 counterexample: the HTTP listener component, with a live handle and a
drain timeout of 0 ms (so any internal deadline equal to the configured
timeout would elapse during the 100 ms grace pause of the body), still returns
success and never an HttpServer-classified error, contradicting the claim that
every component wraps its body in such a deadline and classifies its elapsing
as its component-specific error. -/
theorem http_shutdown_no_deadline_counterexample :
    (HttpServerShutdown.shutdown { serverHandle := some (), drainTimeout := 0 }).2
      = Except.ok ()
    ∧ ¬ ∃ msg,
      (HttpServerShutdown.shutdown { serverHandle := some (), drainTimeout := 0 }).2
        = Except.error (ShutdownError.HttpServer msg) := by
  constructor
  · rfl
  · rintro ⟨msg, hmsg⟩
    simp [HttpServerShutdown.shutdown] at hmsg

/-- C8 (amended): the database, external-client and log-flush components wrap
their shutdown bodies in deadlines equal to their configured timeouts; on an
elapsed deadline the database component reports Database("Close timeout") and
the external-client component ExternalService("Cleanup timeout"), while the
log-flush component still returns success; the HTTP listener component has no
internal deadline at all — it hands the drain timeout to the server handle
and returns success. -/
theorem shutdown_deadline_classification (d : DatabaseShutdown) (dur : Nat)
    (e : ExternalServiceShutdown) (t : TracingShutdown) (h : HttpServerShutdown)
    (hd : d.database = some ()) (hdur : d.closeTimeout < dur)
    (he : e.service = some ()) (het : e.cleanupTimeout < 100)
    (ht : t.guard = some ()) (htt : t.flushTimeout < 100) :
    (d.shutdown dur).2 = Except.error (ShutdownError.Database "Close timeout")
    ∧ e.shutdown.2 = Except.error (ShutdownError.ExternalService "Cleanup timeout")
    ∧ t.shutdown.2 = Except.ok ()
    ∧ h.shutdown.2 = Except.ok () := by
  obtain ⟨hh, hdt⟩ := h
  refine ⟨?_, ?_, ?_, ?_⟩
  · have hn : ¬ dur ≤ d.closeTimeout := by omega
    simp [DatabaseShutdown.shutdown, hd, hn]
  · have hn : ¬ 100 ≤ e.cleanupTimeout := by omega
    simp [ExternalServiceShutdown.shutdown, he, hn]
  · have hn : ¬ 100 ≤ t.flushTimeout := by omega
    simp [TracingShutdown.shutdown, ht, hn]
  · cases hh <;> simp [HttpServerShutdown.shutdown]

/-- Witness for C8 (amended): concrete components whose bodies outlast their
deadlines. -/
theorem shutdown_deadline_classification_witness :
    (DatabaseShutdown.shutdown { database := some (), closeTimeout := 10000 } 20000).2
      = Except.error (ShutdownError.Database "Close timeout")
    ∧ (ExternalServiceShutdown.shutdown { service := some (), cleanupTimeout := 50 }).2
      = Except.error (ShutdownError.ExternalService "Cleanup timeout")
    ∧ (TracingShutdown.shutdown { guard := some (), flushTimeout := 50 }).2
      = Except.ok ()
    ∧ (HttpServerShutdown.shutdown { serverHandle := some (), drainTimeout := 10000 }).2
      = Except.ok () :=
  shutdown_deadline_classification
    { database := some (), closeTimeout := 10000 } 20000
    { service := some (), cleanupTimeout := 50 }
    { guard := some (), flushTimeout := 50 }
    { serverHandle := some (), drainTimeout := 10000 }
    rfl (by decide) rfl (by decide) rfl (by decide)

/-- Helper: can_execute never changes the failure stamp. -/
lemma can_execute_lastFailure (cb : CircuitBreaker) (now : Nat) :
    (cb.can_execute now).2.lastFailureTime = cb.lastFailureTime := by
  obtain ⟨st, fc, sc, lft, th, tmo, hm⟩ := cb
  cases st <;> cases lft <;>
    simp [CircuitBreaker.can_execute] <;> split <;> simp

/-- Helper: record_success never changes the failure stamp. -/
lemma record_success_lastFailure (cb : CircuitBreaker) :
    cb.record_success.lastFailureTime = cb.lastFailureTime := by
  obtain ⟨st, fc, sc, lft, th, tmo, hm⟩ := cb
  cases st <;> simp [CircuitBreaker.record_success] <;> split <;> simp

/-- Helper: record_failure always stamps the clock. -/
lemma record_failure_lastFailure (cb : CircuitBreaker) (now : Nat) :
    (cb.record_failure now).lastFailureTime = some now := by
  obtain ⟨st, fc, sc, lft, th, tmo, hm⟩ := cb
  cases st <;> simp [CircuitBreaker.record_failure] <;> split <;> simp

/-- Helper: in a reset-free run, a cleared failure stamp at the end forces a
cleared stamp at the start and a failure-free history. -/
lemma runOps_none_no_failures (ops : List CBOp) (hnr : CBOp.reset ∉ ops) :
    ∀ cb : CircuitBreaker, (runOps cb ops).lastFailureTime = none →
      cb.lastFailureTime = none ∧ countFailures ops = 0 := by
  induction ops with
  | nil =>
    intro cb h
    exact ⟨h, rfl⟩
  | cons op rest ih =>
    intro cb h
    have hnr2 : CBOp.reset ∉ rest := fun hm => hnr (List.mem_cons_of_mem _ hm)
    obtain ⟨h1, h2⟩ := ih hnr2 (CBOp.apply cb op) h
    cases op with
    | canExec now =>
      rw [CBOp.apply, can_execute_lastFailure] at h1
      exact ⟨h1, by simpa [countFailures] using h2⟩
    | recordSuccess =>
      rw [CBOp.apply, record_success_lastFailure] at h1
      exact ⟨h1, by simpa [countFailures] using h2⟩
    | recordFailure now =>
      rw [CBOp.apply, record_failure_lastFailure] at h1
      exact absurd h1 (by simp)
    | reset =>
      exact absurd (List.mem_cons_self _ _) hnr

/-- C9 counterexample: with reset among the operations the stated invariant
fails — one recorded failure followed by the administrative reset leaves
last_failure_time = None although a failure has been recorded. -/
theorem last_failure_reset_counterexample :
    countFailures [CBOp.recordFailure 0, CBOp.reset] = 1
    ∧ (runOps (CircuitBreaker.new 5 60) [CBOp.recordFailure 0, CBOp.reset]).lastFailureTime
        = none := by
  decide

/-- C9 (amended): in every breaker state reachable from a fresh breaker by
can_execute, record_success and record_failure — without reset —
last_failure_time is None only if no failure was ever recorded; reset itself
clears last_failure_time regardless of prior history. -/
theorem last_failure_none_only_if_no_failures (k t : Nat) (ops : List CBOp)
    (cb : CircuitBreaker) (hnr : CBOp.reset ∉ ops)
    (hnone : (runOps (CircuitBreaker.new k t) ops).lastFailureTime = none) :
    countFailures ops = 0 ∧ cb.reset.lastFailureTime = none :=
  ⟨(runOps_none_no_failures ops hnr _ hnone).2, rfl⟩

/-- Witness for C9 (amended): a short reset-free failure-free run. -/
theorem last_failure_none_only_if_no_failures_witness :
    countFailures [CBOp.canExec 0, CBOp.recordSuccess] = 0
    ∧ (CircuitBreaker.new 5 60).reset.lastFailureTime = none :=
  last_failure_none_only_if_no_failures 2 60 [CBOp.canExec 0, CBOp.recordSuccess]
    (CircuitBreaker.new 5 60) (by decide) (by decide)

/-- Helper: every breaker operation preserves the probe limit field. -/
lemma apply_halfOpenMax (cb : CircuitBreaker) (op : CBOp) :
    (CBOp.apply cb op).halfOpenMaxCalls = cb.halfOpenMaxCalls := by
  obtain ⟨st, fc, sc, lft, th, tmo, hm⟩ := cb
  cases op <;> cases st <;> (try cases lft) <;>
    simp only [CBOp.apply, CircuitBreaker.can_execute, CircuitBreaker.record_success,
      CircuitBreaker.record_failure, CircuitBreaker.reset] <;>
    (first | rfl | (split <;> rfl))

/-- Helper: every breaker operation preserves the HalfOpen probe-count bound,
given a positive probe limit. -/
lemma apply_half_open_inv (cb : CircuitBreaker) (op : CBOp)
    (hpos : 0 < cb.halfOpenMaxCalls)
    (h2 : cb.state = .HalfOpen → cb.successCount < cb.halfOpenMaxCalls) :
    (CBOp.apply cb op).state = .HalfOpen →
      (CBOp.apply cb op).successCount < (CBOp.apply cb op).halfOpenMaxCalls := by
  obtain ⟨st, fc, sc, lft, th, tmo, hm⟩ := cb
  simp only at hpos h2
  cases op with
  | canExec now =>
    cases st with
    | Closed => simpa [CBOp.apply, CircuitBreaker.can_execute] using h2
    | Open =>
      cases lft with
      | none => simp [CBOp.apply, CircuitBreaker.can_execute]
      | some lf =>
        by_cases hto : tmo ≤ now - lf <;>
          simp [CBOp.apply, CircuitBreaker.can_execute, hto, hpos]
    | HalfOpen => simpa [CBOp.apply, CircuitBreaker.can_execute] using h2
  | recordSuccess =>
    cases st with
    | Closed => simp [CBOp.apply, CircuitBreaker.record_success]
    | Open => simp [CBOp.apply, CircuitBreaker.record_success]
    | HalfOpen =>
      by_cases hsc : hm ≤ sc + 1 <;>
        simp [CBOp.apply, CircuitBreaker.record_success, hsc] <;> omega
  | recordFailure now =>
    cases st with
    | Closed =>
      by_cases hth : th ≤ fc + 1 <;>
        simp [CBOp.apply, CircuitBreaker.record_failure, hth]
    | Open => simp [CBOp.apply, CircuitBreaker.record_failure]
    | HalfOpen => simp [CBOp.apply, CircuitBreaker.record_failure]
  | reset => simp [CBOp.apply, CircuitBreaker.reset]

/-- Helper: the probe-count invariant holds of every reachable breaker. -/
lemma runOps_half_open_inv (ops : List CBOp) :
    ∀ cb : CircuitBreaker, 0 < cb.halfOpenMaxCalls →
      (cb.state = .HalfOpen → cb.successCount < cb.halfOpenMaxCalls) →
      ((runOps cb ops).state = .HalfOpen →
        (runOps cb ops).successCount < (runOps cb ops).halfOpenMaxCalls) := by
  induction ops with
  | nil =>
    intro cb _ h2
    exact h2
  | cons op rest ih =>
    intro cb h1 h2
    exact ih (CBOp.apply cb op)
      (by rw [apply_halfOpenMax]; exact h1)
      (apply_half_open_inv cb op h1 h2)

/-- C10: in every breaker state reachable from a fresh breaker by any sequence
of can_execute, record_success, record_failure and reset, HalfOpen implies
success_count < half_open_max_calls, so can_execute queried while HalfOpen
always answers true — its false branch for HalfOpen is dead. -/
theorem half_open_gate_always_true (k t now : Nat) (ops : List CBOp)
    (hs : (runOps (CircuitBreaker.new k t) ops).state = .HalfOpen) :
    (runOps (CircuitBreaker.new k t) ops).successCount
        < (runOps (CircuitBreaker.new k t) ops).halfOpenMaxCalls
    ∧ ((runOps (CircuitBreaker.new k t) ops).can_execute now).1 = true := by
  have hinv := runOps_half_open_inv ops (CircuitBreaker.new k t)
    (by simp [CircuitBreaker.new])
    (by intro hcon; simp [CircuitBreaker.new] at hcon)
  refine ⟨hinv hs, ?_⟩
  simp [CircuitBreaker.can_execute, hs, hinv hs]

/-- Witness for C10: threshold 1, timeout 5; one failure at time 0 then a gate
query at time 10 puts the breaker in HalfOpen. -/
theorem half_open_gate_always_true_witness :
    (runOps (CircuitBreaker.new 1 5) [CBOp.recordFailure 0, CBOp.canExec 10]).successCount
        < (runOps (CircuitBreaker.new 1 5) [CBOp.recordFailure 0, CBOp.canExec 10]).halfOpenMaxCalls
    ∧ ((runOps (CircuitBreaker.new 1 5) [CBOp.recordFailure 0, CBOp.canExec 10]).can_execute 99).1
        = true :=
  half_open_gate_always_true 1 5 99 [CBOp.recordFailure 0, CBOp.canExec 10] (by decide)

end Resilience
